import Mathlib

/-!
Shallow embedding of the selectable-control widget subsystem in
`src/urwid/wimp.py`: the `CheckBox`, `RadioButton` and `Button` classes.

Python state values are modelled by the inductive type `PyVal`.  The value
`pyNone` is the Python `None` sentinel, `pyFalse` / `pyTrue` are the booleans,
`pyMixed` is the string literal for the mixed state, `pyFirstTrue` is the
string sentinel accepted by the `RadioButton` constructor, and `pyOther n`
stands for any other value (modelled as an integer `n`) that a caller might
pass to `set_state`.

Mutation of a widget is modelled functionally: every operation returns the
new widget value together with an ordered trace of the primitive effects it
performed, in execution order (`Step.emit_change`, `Step.assign_state`,
`Step.assign_w`, `Step.raise_error`).  A raised `CheckBoxError` aborts the
operation, so a trace containing `Step.raise_error` ends there and the
returned widget equals the input widget.

Modelled from the spec: the signal machinery (`connect_signal`, `_emit` from
the signals module) is not under `src/`; per the spec the emission is fully
synchronous, so a `Step.emit_change` step records, in `observed_state`, the
state a handler reading the widget accessor would see at the moment the
signal is delivered, and, in `new_state`, the state argument passed along
with the signal.
-/

/-- Python values relevant to the toggle controls. -/
inductive PyVal where
  | pyNone
  | pyFalse
  | pyTrue
  | pyMixed
  | pyFirstTrue
  | pyOther (n : Nat)
deriving DecidableEq, Repr

/-- Membership in the `states` dictionary of `CheckBox` / `RadioButton`:
both class attributes have exactly the keys `True`, `False` and the mixed
string (the glyphs differ, the key sets do not). -/
def inStates (v : PyVal) : Bool :=
  match v with
  | .pyFalse => true
  | .pyTrue => true
  | .pyMixed => true
  | _ => false

/-- Python truthiness of the modelled values: `None` and `False` are falsy,
`True` and the non-empty strings are truthy, and `pyOther n` (an integer)
is truthy exactly when `n` is non-zero. -/
def truthy (v : PyVal) : Bool :=
  match v with
  | .pyNone => false
  | .pyFalse => false
  | .pyTrue => true
  | .pyMixed => true
  | .pyFirstTrue => true
  | .pyOther n => n != 0

/-- The composition `self.w` built by `CheckBox.set_state`:
`Columns([(fixed, reserve_columns, states[state]), self._label])` with
`focus_col = 0`.  The glyph cell is determined by the state key into the
class `states` dictionary; the label cell is a reference to the shared
`self._label` object, so it is not duplicated here. -/
structure Comp where
  glyph_state : PyVal
  focus_col : Nat
deriving DecidableEq, Repr

/-- One primitive effect performed by an operation, in execution order. -/
inductive Step where
  | emit_change (observed_state new_state : PyVal)
  | assign_state (v : PyVal)
  | assign_w (c : Comp)
  | raise_error (invalid : PyVal)
deriving DecidableEq, Repr

/-- Whether a trace contains a raised `CheckBoxError`. -/
def stepsRaise (l : List Step) : Bool :=
  l.any fun s => s matches .raise_error _

/-- Whether a trace contains a change-signal emission. -/
def stepsEmit (l : List Step) : Bool :=
  l.any fun s => s matches .emit_change _ _

/-- The mutable attributes of a `CheckBox` (also used for `RadioButton`
instances, whose `has_mixed` is always `False` because
`RadioButton.__init__` passes `False` to the base constructor).  `w` is
`Option.none` before the first committed `set_state` builds the
composition. -/
structure CheckBox where
  _state : PyVal
  has_mixed : Bool
  _label : String
  w : Option Comp
deriving DecidableEq, Repr

namespace CheckBox

/-- `CheckBox.set_state(self, state, do_callback=True)`, lines 155-200:
early return when `self._state == state`; raise `CheckBoxError` when
`state not in self.states`; otherwise emit the change signal when
`do_callback and self._state is not None`, then commit `self._state`,
then rebuild `self.w` and set `focus_col = 0`. -/
def set_state (cb : CheckBox) (state : PyVal) (do_callback : Bool) :
    CheckBox × List Step :=
  if cb._state = state then
    (cb, [])
  else if ¬ inStates state then
    (cb, [Step.raise_error state])
  else
    let emits : List Step :=
      if do_callback ∧ cb._state ≠ PyVal.pyNone then
        [Step.emit_change cb._state state]
      else []
    let comp : Comp := ⟨state, 0⟩
    ({ cb with _state := state, w := some comp },
      emits ++ [Step.assign_state state, Step.assign_w comp])

/-- `CheckBox.__init__(self, label, state=False, has_mixed=False, ...)`,
lines 79-111: `self._state = None`, the label is set, an optional
`on_state_change` handler is connected (connection does not itself emit),
and then `self.set_state(state)` runs with the default `do_callback`. -/
def init (label : String) (state : PyVal) (has_mixed : Bool) :
    CheckBox × List Step :=
  let cb0 : CheckBox :=
    { _state := PyVal.pyNone, has_mixed := has_mixed, _label := label,
      w := Option.none }
  set_state cb0 state true

/-- `CheckBox.toggle_state(self)`, lines 229-255: cycle
False to True, True to mixed when `has_mixed` else to False, mixed to
False; any other current state matches no branch and is left alone.
(The trailing `self._invalidate()` only marks the render cache and is not
modelled.) -/
def toggle_state (cb : CheckBox) : CheckBox × List Step :=
  if cb._state = PyVal.pyFalse then
    set_state cb PyVal.pyTrue true
  else if cb._state = PyVal.pyTrue then
    if cb.has_mixed then set_state cb PyVal.pyMixed true
    else set_state cb PyVal.pyFalse true
  else if cb._state = PyVal.pyMixed then
    set_state cb PyVal.pyFalse true
  else
    (cb, [])

end CheckBox

/-- One externally-triggered operation on a single `CheckBox` after its
construction.  `CheckBox.keypress` either returns the key or calls
`toggle_state`, and `CheckBox.mouse_event` either does nothing or calls
`toggle_state`, so both reduce to `op_toggle` or to no effect;
`set_label` (lines 121-137) only replaces the text of the shared
`self._label` object. -/
inductive CbOp where
  | op_set_state (v : PyVal) (do_callback : Bool)
  | op_toggle
  | op_set_label (l : String)
deriving DecidableEq, Repr

/-- Apply one post-construction operation to a `CheckBox`. -/
def applyCbOp (cb : CheckBox) : CbOp → CheckBox × List Step
  | .op_set_state v dc => CheckBox.set_state cb v dc
  | .op_toggle => CheckBox.toggle_state cb
  | .op_set_label l => ({ cb with _label := l }, [])

/-- Run a sequence of post-construction operations on a `CheckBox`. -/
def runCbOps (cb : CheckBox) (ops : List CbOp) : CheckBox :=
  ops.foldl (fun c op => (applyCbOp c op).1) cb

namespace RadioButton

/-- Result of `RadioButton.set_state` on a group member: the members that
precede it in `self.group`, the member itself, the members that follow it,
and the trace of effects in execution order. -/
structure SetResult where
  pre : List CheckBox
  self : CheckBox
  post : List CheckBox
  steps : List Step
deriving DecidableEq, Repr

/-- The body of the clearing loop in `RadioButton.set_state`, lines
346-349, for one fellow member: `if cb._state: cb.set_state(False)`.
That nested call is again `RadioButton.set_state`, but with `state =
False` it returns right after the base-class transition, so it equals
`CheckBox.set_state cb False True`. -/
def clearOther (cb : CheckBox) : CheckBox × List Step :=
  if truthy cb._state then CheckBox.set_state cb PyVal.pyFalse true
  else (cb, [])

/-- The clearing loop over a segment of the group, in list order. -/
def clearOthers : List CheckBox → List CheckBox × List Step
  | [] => ([], [])
  | cb :: rest =>
    let r := clearOther cb
    let rs := clearOthers rest
    (r.1 :: rs.1, r.2 ++ rs.2)

/-- `RadioButton.set_state(self, state, do_callback=True)`, lines 315-349,
called on the member `self` whose fellow group members are `pre` (before
it) and `post` (after it): early return when unchanged; delegate to the
base `CheckBox.set_state` (a raise there propagates and skips the loop);
return unless the new state is `True`; otherwise clear every other member
whose state is truthy, skipping `self` itself (`if cb is self:
continue`), in group order. -/
def set_state (pre : List CheckBox) (self : CheckBox) (post : List CheckBox)
    (state : PyVal) (do_callback : Bool) : SetResult :=
  if self._state = state then ⟨pre, self, post, []⟩
  else
    let r := CheckBox.set_state self state do_callback
    if stepsRaise r.2 then ⟨pre, r.1, post, r.2⟩
    else if state ≠ PyVal.pyTrue then ⟨pre, r.1, post, r.2⟩
    else
      let rp := clearOthers pre
      let rq := clearOthers post
      ⟨rp.1, r.1, rq.1, r.2 ++ rp.2 ++ rq.2⟩

/-- Result of constructing a `RadioButton` into a group: the group after
the construction, the constructed widget, the trace, and whether the
construction raised (in which case it never reached `group.append`). -/
structure InitResult where
  group : List CheckBox
  self : CheckBox
  steps : List Step
  raised : Bool
deriving DecidableEq, Repr

/-- `RadioButton.__init__(self, group, label, state="first True", ...)`,
lines 283-311: the sentinel resolves to `not group` (True exactly when
the group is empty); then `CheckBox.__init__` runs, whose
`self.set_state(state)` dispatches to `RadioButton.set_state` at a moment
when `self` is not yet in the group (so `pre` is the whole group and
`post` is empty); finally `group.append(self)` — skipped when the state
was invalid, because the raise propagates out of the constructor. -/
def init (g : List CheckBox) (label : String) (state0 : PyVal) : InitResult :=
  let state := if state0 = PyVal.pyFirstTrue then
      (if g.isEmpty then PyVal.pyTrue else PyVal.pyFalse)
    else state0
  let self0 : CheckBox :=
    { _state := PyVal.pyNone, has_mixed := false, _label := label,
      w := Option.none }
  let r := set_state g self0 [] state true
  if stepsRaise r.steps then ⟨g, r.self, r.steps, true⟩
  else ⟨r.pre ++ [r.self], r.self, r.steps, false⟩

/-- One externally-triggered operation on a radio-button group: construct
a new member into it, or call `set_state` on the member at index `i`
(out-of-range indices do nothing; they correspond to no Python call). -/
inductive GOp where
  | construct (label : String) (state : PyVal)
  | member_set_state (i : Nat) (state : PyVal) (do_callback : Bool)
deriving DecidableEq, Repr

/-- Apply one group operation. -/
def applyGOp (g : List CheckBox) : GOp → List CheckBox
  | .construct label state => (init g label state).group
  | .member_set_state i state dc =>
    if h : i < g.length then
      let r := set_state (g.take i) g[i] (g.drop (i + 1)) state dc
      r.pre ++ r.self :: r.post
    else g

/-- Run a sequence of group operations starting from an empty group. -/
def runGOps (ops : List GOp) : List CheckBox :=
  ops.foldl applyGOp []

/-- Number of group members whose state is `True`. -/
def countTrue (g : List CheckBox) : Nat :=
  g.countP fun cb => cb._state == PyVal.pyTrue

end RadioButton

/-- Modelled from the spec: the pointer-event classifier `is_mouse_press`
comes from the widget module, which is not under `src/`; the spec says it
reports, for an event descriptor, whether the event represents a press,
as opposed to release or drag. -/
inductive MouseEventKind where
  | press
  | release
  | drag
deriving DecidableEq, Repr

/-- Modelled from the spec: see `MouseEventKind`. -/
def is_mouse_press (ev : MouseEventKind) : Bool :=
  ev matches .press

/-- The attributes of a `Button` (lines 372-391): a label, whether an
`on_press` callback was supplied (a supplied callable is truthy), and the
optional `user_data`. -/
structure Button where
  label : String
  on_press : Bool
  user_data : Option String
deriving DecidableEq, Repr

/-- A recorded invocation of the `on_press` callback: the arguments the
callback receives are the button object itself and, only when present,
the extra data argument. -/
structure BtnCall where
  btn : Button
  data_arg : Option String
deriving DecidableEq, Repr

namespace Button

/-- `Button.keypress(self, size, key)`, lines 421-430: any key other than
space or enter is returned unconsumed; otherwise, when a callback is set,
it is called with the button alone if `self.user_data is None` and with
the button and the user data otherwise; the key is consumed (Python
returns `None`). -/
def keypress (b : Button) (size : Nat) (key : String) :
    Option String × List BtnCall :=
  if key ≠ " " ∧ key ≠ "enter" then (some key, [])
  else if b.on_press then
    match b.user_data with
    | Option.none => (Option.none, [⟨b, Option.none⟩])
    | some d => (Option.none, [⟨b, some d⟩])
  else (Option.none, [])

/-- `Button.mouse_event(self, size, event, button, x, y, focus)`, lines
432-440: unhandled unless `button == 1` and the event is a press; then,
when a callback is set, the code runs `self.on_press(self)` — passing
only the button object, never `self.user_data` — and reports handled;
with no callback it reports unhandled. -/
def mouse_event (b : Button) (size : Nat) (event : MouseEventKind)
    (button : Nat) (x y : Nat) (focus : Bool) : Bool × List BtnCall :=
  if button ≠ 1 ∨ ¬ is_mouse_press event then (false, [])
  else if b.on_press then (true, [⟨b, Option.none⟩])
  else (false, [])

end Button


namespace CheckBox

/-- A committed transition: when the new state differs from the current one
and is a key of `states`, the result carries the new state and the freshly
built composition. -/
theorem set_state_commit (cb : CheckBox) (v : PyVal) (dc : Bool)
    (h1 : cb._state ≠ v) (h2 : inStates v = true) :
    (set_state cb v dc).1 = { cb with _state := v, w := some ⟨v, 0⟩ } := by
  simp [set_state, h1, h2]

/-- An invalid transition: when the new state differs from the current one
and is not a key of `states`, the call raises before mutating anything. -/
theorem set_state_invalid (cb : CheckBox) (v : PyVal) (dc : Bool)
    (h1 : cb._state ≠ v) (h2 : inStates v = false) :
    set_state cb v dc = (cb, [Step.raise_error v]) := by
  simp [set_state, h1, h2]

/-- `set_state` with a valid state never raises. -/
theorem set_state_noraise (cb : CheckBox) (v : PyVal) (dc : Bool)
    (h2 : inStates v = true) :
    stepsRaise (set_state cb v dc).2 = false := by
  by_cases h1 : cb._state = v
  · simp [set_state, h1, stepsRaise]
  · simp only [set_state, if_neg h1, h2]
    simp [stepsRaise]
    intro x h3 h4 h5
    subst h5
    rfl

/-- `set_state` keeps the state inside the `states` key set. -/
theorem set_state_preserves_inStates (cb : CheckBox) (v : PyVal) (dc : Bool)
    (h : inStates cb._state = true) :
    inStates (set_state cb v dc).1._state = true := by
  by_cases h1 : cb._state = v
  · simpa [set_state, h1] using h
  · by_cases h2 : inStates v = true
    · simp [set_state, h1, h2]
    · simpa [set_state, h1, h2] using h

/-- `toggle_state` keeps the state inside the `states` key set. -/
theorem toggle_state_preserves_inStates (cb : CheckBox)
    (h : inStates cb._state = true) :
    inStates (toggle_state cb).1._state = true := by
  rcases cb with ⟨s, hm, l, w⟩
  cases s <;> cases hm <;>
    simp_all [toggle_state, set_state, inStates]

end CheckBox

/-- Every post-construction operation keeps the state inside the `states`
key set. -/
theorem applyCbOp_preserves_inStates (cb : CheckBox) (op : CbOp)
    (h : inStates cb._state = true) :
    inStates (applyCbOp cb op).1._state = true := by
  cases op with
  | op_set_state v dc => exact CheckBox.set_state_preserves_inStates cb v dc h
  | op_toggle => exact CheckBox.toggle_state_preserves_inStates cb h
  | op_set_label l => simpa [applyCbOp] using h

/-- Any sequence of post-construction operations keeps the state inside
the `states` key set. -/
theorem runCbOps_preserves_inStates (ops : List CbOp) (cb : CheckBox)
    (h : inStates cb._state = true) :
    inStates (runCbOps cb ops)._state = true := by
  induction ops generalizing cb with
  | nil => simpa [runCbOps] using h
  | cons op rest ih =>
    simp only [runCbOps, List.foldl_cons]
    exact ih _ (applyCbOp_preserves_inStates cb op h)

namespace RadioButton

/-- After the clearing-loop body, a member is never in the `True` state:
a truthy member was just set to `False`, a falsy one was `None` or
`False` already. -/
theorem clearOther_not_true (cb : CheckBox) :
    ((clearOther cb).1)._state ≠ PyVal.pyTrue := by
  rcases cb with ⟨s, hm, l, w⟩
  cases s <;> simp [clearOther, truthy, CheckBox.set_state, inStates] <;>
    split <;> simp_all

/-- After the clearing loop, no member of the segment is `True`. -/
theorem clearOthers_countTrue (l : List CheckBox) :
    countTrue (clearOthers l).1 = 0 := by
  induction l with
  | nil => simp [clearOthers, countTrue]
  | cons cb rest ih =>
    simp only [clearOthers, countTrue, List.countP_cons] at *
    have h := clearOther_not_true cb
    simp [ih, h]

/-- The clearing loop does not change the number of members. -/
theorem clearOthers_length (l : List CheckBox) :
    (clearOthers l).1.length = l.length := by
  induction l with
  | nil => simp [clearOthers]
  | cons cb rest ih => simp [clearOthers, ih]

theorem countTrue_append (l m : List CheckBox) :
    countTrue (l ++ m) = countTrue l + countTrue m := by
  simp [countTrue, List.countP_append]

theorem countTrue_cons (cb : CheckBox) (l : List CheckBox) :
    countTrue (cb :: l) =
      countTrue l + (if cb._state = PyVal.pyTrue then 1 else 0) := by
  simp [countTrue, List.countP_cons]

/-- Branch equation: `RadioButton.set_state` when the state is unchanged. -/
theorem set_state_noop_eq (pre : List CheckBox) (self : CheckBox)
    (post : List CheckBox) (v : PyVal) (dc : Bool) (h0 : self._state = v) :
    set_state pre self post v dc = ⟨pre, self, post, []⟩ := by
  simp [set_state, h0]

/-- Branch equation: `RadioButton.set_state` when the base transition
raises; the exception propagates before the clearing loop runs. -/
theorem set_state_invalid_eq (pre : List CheckBox) (self : CheckBox)
    (post : List CheckBox) (v : PyVal) (dc : Bool) (h0 : self._state ≠ v)
    (h1 : inStates v = false) :
    set_state pre self post v dc = ⟨pre, self, post, [Step.raise_error v]⟩ := by
  have hb := CheckBox.set_state_invalid self v dc h0 h1
  simp [set_state, h0, hb, stepsRaise]

/-- Branch equation: a committed transition to a state other than `True`
skips the clearing loop. -/
theorem set_state_other_eq (pre : List CheckBox) (self : CheckBox)
    (post : List CheckBox) (v : PyVal) (dc : Bool) (h0 : self._state ≠ v)
    (h1 : inStates v = true) (h2 : v ≠ PyVal.pyTrue) :
    set_state pre self post v dc =
      ⟨pre, (CheckBox.set_state self v dc).1, post,
        (CheckBox.set_state self v dc).2⟩ := by
  have hr := CheckBox.set_state_noraise self v dc h1
  simp [set_state, h0, hr, h2]

/-- Branch equation: a committed transition to `True` runs the clearing
loop over the fellow members on both sides. -/
theorem set_state_true_eq (pre : List CheckBox) (self : CheckBox)
    (post : List CheckBox) (dc : Bool) (h0 : self._state ≠ PyVal.pyTrue) :
    set_state pre self post PyVal.pyTrue dc =
      ⟨(clearOthers pre).1, (CheckBox.set_state self PyVal.pyTrue dc).1,
        (clearOthers post).1,
        (CheckBox.set_state self PyVal.pyTrue dc).2 ++ (clearOthers pre).2 ++
          (clearOthers post).2⟩ := by
  have hr := CheckBox.set_state_noraise self PyVal.pyTrue dc rfl
  simp [set_state, h0, hr]

/-- `RadioButton.set_state` preserves the at-most-one-`True` invariant of
the group it runs on. -/
theorem set_state_countTrue (pre : List CheckBox) (self : CheckBox)
    (post : List CheckBox) (v : PyVal) (dc : Bool)
    (h : countTrue (pre ++ self :: post) ≤ 1) :
    countTrue ((set_state pre self post v dc).pre ++
      (set_state pre self post v dc).self ::
      (set_state pre self post v dc).post) ≤ 1 := by
  by_cases h0 : self._state = v
  · rw [set_state_noop_eq pre self post v dc h0]
    exact h
  · by_cases h1 : inStates v = true
    · by_cases h2 : v = PyVal.pyTrue
      · subst h2
        rw [set_state_true_eq pre self post dc h0]
        have hc : (CheckBox.set_state self PyVal.pyTrue dc).1._state =
            PyVal.pyTrue := by
          rw [CheckBox.set_state_commit self PyVal.pyTrue dc h0 rfl]
        rw [countTrue_append, countTrue_cons, clearOthers_countTrue pre,
          clearOthers_countTrue post, hc]
        simp
      · rw [set_state_other_eq pre self post v dc h0 h1 h2]
        dsimp only
        have hc : (CheckBox.set_state self v dc).1._state = v := by
          rw [CheckBox.set_state_commit self v dc h0 h1]
        rw [countTrue_append, countTrue_cons] at h ⊢
        rw [hc, if_neg h2]
        by_cases hs : self._state = PyVal.pyTrue
        · rw [if_pos hs] at h
          omega
        · rw [if_neg hs] at h
          omega
    · have h1f : inStates v = false := by
        simpa using h1
      rw [set_state_invalid_eq pre self post v dc h0 h1f]
      exact h

/-- `RadioButton.__init__` preserves the at-most-one-`True` invariant of
the group the new button is appended to. -/
theorem init_countTrue (g : List CheckBox) (label : String) (state0 : PyVal)
    (h : countTrue g ≤ 1) :
    countTrue (init g label state0).group ≤ 1 := by
  simp only [init]
  set state := if state0 = PyVal.pyFirstTrue then
      (if g.isEmpty then PyVal.pyTrue else PyVal.pyFalse)
    else state0 with hstate
  set self0 : CheckBox :=
    { _state := PyVal.pyNone, has_mixed := false, _label := label,
      w := Option.none } with hself0
  have hsplit : countTrue (g ++ self0 :: []) ≤ 1 := by
    rw [countTrue_append, countTrue_cons]
    simp [hself0, countTrue]
    exact h
  have hmain := set_state_countTrue g self0 [] state true hsplit
  by_cases hr : stepsRaise (set_state g self0 [] state true).steps = true
  · simp [hr]
    exact h
  · simp only [hr, if_false, Bool.false_eq_true]
    have hpost : (set_state g self0 [] state true).post = [] := by
      by_cases h0 : self0._state = state
      · rw [set_state_noop_eq g self0 [] state true h0]
      · by_cases h1 : inStates state = true
        · by_cases h2 : state = PyVal.pyTrue
          · rw [h2] at h0 ⊢
            rw [set_state_true_eq g self0 [] true h0]
            simp [clearOthers]
          · rw [set_state_other_eq g self0 [] state true h0 h1 h2]
        · have h1f : inStates state = false := by simpa using h1
          rw [set_state_invalid_eq g self0 [] state true h0 h1f]
    have : (set_state g self0 [] state true).pre ++
        [(set_state g self0 [] state true).self] =
        (set_state g self0 [] state true).pre ++
          (set_state g self0 [] state true).self ::
          (set_state g self0 [] state true).post := by
      rw [hpost]
    rw [this]
    exact hmain

/-- Every group operation preserves the at-most-one-`True` invariant. -/
theorem applyGOp_countTrue (g : List CheckBox) (op : GOp)
    (h : countTrue g ≤ 1) : countTrue (applyGOp g op) ≤ 1 := by
  cases op with
  | construct label state => exact init_countTrue g label state h
  | member_set_state i state dc =>
    simp only [applyGOp]
    by_cases hi : i < g.length
    · simp only [dif_pos hi]
      have hg : g.take i ++ g[i] :: g.drop (i + 1) = g := by
        rw [List.getElem_cons_drop, List.take_append_drop]
      exact set_state_countTrue (g.take i) g[i] (g.drop (i + 1)) state dc
        (by rw [hg]; exact h)
    · simp only [dif_neg hi]
      exact h

end RadioButton

/-- C1: For every radio-button group, after every completed `set_state` call
on any member and after every `RadioButton` construction, at most one member
of the group has state `True`.  Formally: any sequence of constructions and
member `set_state` calls, starting from an empty group, leaves at most one
member in the `True` state; since every prefix of such a sequence is itself
such a sequence, the invariant holds after every step. -/
theorem c1_radio_group_at_most_one_true (ops : List RadioButton.GOp) :
    RadioButton.countTrue (RadioButton.runGOps ops) ≤ 1 := by
  have hgen : ∀ (l : List RadioButton.GOp) (g : List CheckBox),
      RadioButton.countTrue g ≤ 1 →
      RadioButton.countTrue (l.foldl RadioButton.applyGOp g) ≤ 1 := by
    intro l
    induction l with
    | nil =>
      intro g hg
      simpa using hg
    | cons op rest ih =>
      intro g hg
      simpa using ih _ (RadioButton.applyGOp_countTrue g op hg)
  simpa [RadioButton.runGOps] using hgen ops [] (by simp [RadioButton.countTrue])

/-- C2 counterexample: the claim is false on the code in two ways.  First,
`states` of a `CheckBox` always contains the mixed key, whether or not
`has_mixed` is set, so constructing with `has_mixed = False` and the mixed
state completes without raising and leaves the state outside
`{False, True}`.  Second, constructing with `state = None` hits the
`self._state == state` early return inside the constructor, so the
construction completes with the state still the uninitialized sentinel. -/
theorem c2_counterexample :
    (CheckBox.init "x" PyVal.pyMixed false).1.has_mixed = false ∧
    stepsRaise (CheckBox.init "x" PyVal.pyMixed false).2 = false ∧
    (CheckBox.init "x" PyVal.pyMixed false).1._state = PyVal.pyMixed ∧
    stepsRaise (CheckBox.init "y" PyVal.pyNone false).2 = false ∧
    (CheckBox.init "y" PyVal.pyNone false).1._state = PyVal.pyNone := by
  decide

/-- C2 (amended): for every `CheckBox` constructed with `has_mixed = false`
and an initial state other than `None`, after a construction that does not
raise and after every subsequent sequence of operations the state is in
`{False, True, mixed}` (the key set of `states`) and is never the
uninitialized sentinel `None`. -/
theorem c2_amended_state_stays_in_states (label : String) (s0 : PyVal)
    (ops : List CbOp) (h1 : s0 ≠ PyVal.pyNone)
    (h2 : stepsRaise (CheckBox.init label s0 false).2 = false) :
    inStates (runCbOps (CheckBox.init label s0 false).1 ops)._state = true ∧
    (runCbOps (CheckBox.init label s0 false).1 ops)._state ≠ PyVal.pyNone := by
  have h0 : (⟨PyVal.pyNone, false, label, Option.none⟩ : CheckBox)._state ≠ s0 :=
    fun hx => h1 hx.symm
  have hinit : inStates (CheckBox.init label s0 false).1._state = true := by
    by_cases h3 : inStates s0 = true
    · have hc := CheckBox.set_state_commit
        ⟨PyVal.pyNone, false, label, Option.none⟩ s0 true h0 h3
      simp only [CheckBox.init]
      rw [hc]
      exact h3
    · have h3f : inStates s0 = false := by simpa using h3
      have hc := CheckBox.set_state_invalid
        ⟨PyVal.pyNone, false, label, Option.none⟩ s0 true h0 h3f
      exfalso
      simp only [CheckBox.init] at h2
      rw [hc] at h2
      simp [stepsRaise] at h2
  have hfin := runCbOps_preserves_inStates ops _ hinit
  refine ⟨hfin, fun hx => ?_⟩
  rw [hx] at hfin
  simp [inStates] at hfin

/-- Witness for the amended C2 at a concrete input. -/
theorem c2_amended_witness :
    inStates (runCbOps (CheckBox.init "w" PyVal.pyTrue false).1
      [CbOp.op_toggle])._state = true ∧
    (runCbOps (CheckBox.init "w" PyVal.pyTrue false).1
      [CbOp.op_toggle])._state ≠ PyVal.pyNone :=
  c2_amended_state_stays_in_states "w" PyVal.pyTrue [CbOp.op_toggle]
    (by decide) (by decide)

/-- C3: whenever `set_state` changes the state with `do_callback = True`
and a defined (non-`None`) prior state, the trace is exactly: emit the
change signal carrying the new state while the widget still holds the old
state (`observed_state` is the prior state, so a handler reading the
accessor during its callback sees the old value), then commit the state,
then rebuild the composition. -/
theorem c3_change_signal_before_commit (cb : CheckBox) (v : PyVal)
    (h1 : cb._state ≠ v) (h2 : inStates v = true)
    (h3 : cb._state ≠ PyVal.pyNone) :
    CheckBox.set_state cb v true =
      ({ cb with _state := v, w := some ⟨v, 0⟩ },
        [Step.emit_change cb._state v, Step.assign_state v,
          Step.assign_w ⟨v, 0⟩]) := by
  simp [CheckBox.set_state, h1, h2, h3]

/-- Witness for C3 at a concrete input. -/
theorem c3_witness :
    CheckBox.set_state ⟨PyVal.pyFalse, false, "t", some ⟨PyVal.pyFalse, 0⟩⟩
        PyVal.pyTrue true =
      (⟨PyVal.pyTrue, false, "t", some ⟨PyVal.pyTrue, 0⟩⟩,
        [Step.emit_change PyVal.pyFalse PyVal.pyTrue,
          Step.assign_state PyVal.pyTrue,
          Step.assign_w ⟨PyVal.pyTrue, 0⟩]) :=
  c3_change_signal_before_commit
    ⟨PyVal.pyFalse, false, "t", some ⟨PyVal.pyFalse, 0⟩⟩ PyVal.pyTrue
    (by decide) (by decide) (by decide)

/-- C4 counterexample: the equality test against the current state runs
before the domain check, and a `CheckBox` constructed with `state = None`
completes construction (without raising) still holding the sentinel, so
calling `set_state(None)` on it — `None` being outside the permitted state
set — returns silently instead of raising `CheckBoxError`. -/
theorem c4_counterexample :
    inStates PyVal.pyNone = false ∧
    stepsRaise (CheckBox.init "x" PyVal.pyNone false).2 = false ∧
    CheckBox.set_state (CheckBox.init "x" PyVal.pyNone false).1
        PyVal.pyNone true =
      ((CheckBox.init "x" PyVal.pyNone false).1, []) := by
  decide

/-- C4 (amended): for every toggle control and every value outside the
permitted state set that differs from the current state, `set_state`
raises `CheckBoxError` and leaves the control unchanged — the trace is
exactly the raise, so no signal emission, state commit or recomposition
precedes the rejection. -/
theorem c4_amended_invalid_state_raises (cb : CheckBox) (v : PyVal)
    (dc : Bool) (h1 : inStates v = false) (h2 : cb._state ≠ v) :
    CheckBox.set_state cb v dc = (cb, [Step.raise_error v]) :=
  CheckBox.set_state_invalid cb v dc h2 h1

/-- Witness for the amended C4 at a concrete input. -/
theorem c4_amended_witness :
    CheckBox.set_state ⟨PyVal.pyFalse, false, "e", some ⟨PyVal.pyFalse, 0⟩⟩
        (PyVal.pyOther 7) true =
      (⟨PyVal.pyFalse, false, "e", some ⟨PyVal.pyFalse, 0⟩⟩,
        [Step.raise_error (PyVal.pyOther 7)]) :=
  c4_amended_invalid_state_raises
    ⟨PyVal.pyFalse, false, "e", some ⟨PyVal.pyFalse, 0⟩⟩ (PyVal.pyOther 7)
    true (by decide) (by decide)

/-- C5 counterexample: a `CheckBox` without mixed-state support can still
be in the mixed state (its constructor accepts it), and from there
`toggle_state` applied twice yields `True`, not the original state, so
the period-2 property does not hold from every state. -/
theorem c5_counterexample :
    (CheckBox.init "x" PyVal.pyMixed false).1.has_mixed = false ∧
    ((CheckBox.toggle_state (CheckBox.toggle_state
        (CheckBox.init "x" PyVal.pyMixed false).1).1).1)._state ≠
      (CheckBox.init "x" PyVal.pyMixed false).1._state := by
  decide

/-- C5 (amended): `toggle_state` applied twice from any state other than
the mixed one returns to that state when the control has no mixed-state
support, and applied three times from any state returns to that state
when the control has mixed-state support. -/
theorem c5_amended_toggle_periodicity (cb : CheckBox) :
    (cb.has_mixed = false → cb._state ≠ PyVal.pyMixed →
      ((CheckBox.toggle_state (CheckBox.toggle_state cb).1).1)._state =
        cb._state) ∧
    (cb.has_mixed = true →
      ((CheckBox.toggle_state ((CheckBox.toggle_state
        ((CheckBox.toggle_state cb).1)).1)).1)._state = cb._state) := by
  rcases cb with ⟨s, hm, l, w⟩
  cases s <;> cases hm <;>
    simp [CheckBox.toggle_state, CheckBox.set_state, inStates]

/-- Witness for the amended C5 at concrete inputs. -/
theorem c5_amended_witness :
    ((CheckBox.toggle_state (CheckBox.toggle_state
      (CheckBox.init "p" PyVal.pyFalse false).1).1).1)._state =
      (CheckBox.init "p" PyVal.pyFalse false).1._state ∧
    ((CheckBox.toggle_state ((CheckBox.toggle_state
      ((CheckBox.toggle_state (CheckBox.init "q" PyVal.pyFalse true).1).1)).1)).1)._state =
      (CheckBox.init "q" PyVal.pyFalse true).1._state :=
  ⟨(c5_amended_toggle_periodicity (CheckBox.init "p" PyVal.pyFalse false).1).1
      (by decide) (by decide),
    (c5_amended_toggle_periodicity (CheckBox.init "q" PyVal.pyFalse true).1).2
      (by decide)⟩

/-- C6 (code bug, evaluated at the failing input): a `Button` with a
callback and user data set, receiving a primary-button press, invokes the
callback exactly once and reports handled, but the call passes only the
button object — the user data is dropped, although `keypress` on the same
button passes it and the constructor documentation promises it; release
and secondary-button events invoke nothing and report unhandled. -/
theorem c6_mouse_event_omits_user_data :
    Button.mouse_event ⟨"ok", true, some "data"⟩ 15 MouseEventKind.press
        1 4 0 true =
      (true, [⟨⟨"ok", true, some "data"⟩, Option.none⟩]) ∧
    Button.keypress ⟨"ok", true, some "data"⟩ 15 "enter" =
      (Option.none, [⟨⟨"ok", true, some "data"⟩, some "data"⟩]) ∧
    Button.mouse_event ⟨"ok", true, some "data"⟩ 15 MouseEventKind.release
        1 4 0 true =
      (false, []) ∧
    Button.mouse_event ⟨"ok", true, some "data"⟩ 15 MouseEventKind.press
        2 4 0 true =
      (false, []) := by
  decide

/-- C7: a `RadioButton` constructed with the default sentinel never raises
and gets state `True` exactly when the group is empty at construction
time; in particular three buttons A, B, C constructed in order into an
initially empty group end up `True`, `False`, `False`. -/
theorem c7_first_true_default (g : List CheckBox) (label : String) :
    (RadioButton.init g label PyVal.pyFirstTrue).raised = false ∧
    ((RadioButton.init g label PyVal.pyFirstTrue).self._state =
        PyVal.pyTrue ↔ g.isEmpty = true) ∧
    (RadioButton.runGOps [RadioButton.GOp.construct "A" PyVal.pyFirstTrue,
      RadioButton.GOp.construct "B" PyVal.pyFirstTrue,
      RadioButton.GOp.construct "C" PyVal.pyFirstTrue]).map
        (fun cb => cb._state) =
      [PyVal.pyTrue, PyVal.pyFalse, PyVal.pyFalse] := by
  refine ⟨?_, ?_, by decide⟩ <;>
    cases g <;>
      simp [RadioButton.init, RadioButton.set_state, CheckBox.set_state,
        RadioButton.clearOthers, stepsRaise, inStates]

/-- C8: constructing a toggle control never emits a change signal for the
initial state assignment, whatever the initial state and `has_mixed`
values, because the freshly created control still holds the `None`
sentinel when `set_state` runs (the emission guard requires a non-`None`
prior state). -/
theorem c8_construction_emits_no_change (label : String) (state : PyVal)
    (has_mixed : Bool) :
    stepsEmit (CheckBox.init label state has_mixed).2 = false := by
  cases state <;>
    simp [CheckBox.init, CheckBox.set_state, stepsEmit, inStates]

/-- C9: calling `set_state` with a value equal to the current state is a
complete no-op: it returns through the early-return branch with the
control unchanged and an empty trace — no change signal, no state commit,
no recomposition. -/
theorem c9_set_state_same_state_noop (cb : CheckBox) (v : PyVal) (dc : Bool)
    (h : cb._state = v) :
    CheckBox.set_state cb v dc = (cb, []) := by
  simp [CheckBox.set_state, h]

/-- Witness for C9 at a concrete input. -/
theorem c9_witness :
    CheckBox.set_state ⟨PyVal.pyTrue, false, "s", some ⟨PyVal.pyTrue, 0⟩⟩
        PyVal.pyTrue true =
      (⟨PyVal.pyTrue, false, "s", some ⟨PyVal.pyTrue, 0⟩⟩, []) :=
  c9_set_state_same_state_noop
    ⟨PyVal.pyTrue, false, "s", some ⟨PyVal.pyTrue, 0⟩⟩ PyVal.pyTrue true rfl

/-- C10: on a `Button` with no callback set, `keypress` with an activation
key (space or enter) consumes the key (returns `None`), calls nothing and
raises nothing; `keypress` with any other key returns that key unchanged
whether or not a callback is set. -/
theorem c10_button_keypress_no_callback (b : Button) (size : Nat)
    (key : String) :
    (b.on_press = false →
      Button.keypress b size " " = (Option.none, []) ∧
      Button.keypress b size "enter" = (Option.none, [])) ∧
    (key ≠ " " → key ≠ "enter" →
      Button.keypress b size key = (some key, [])) := by
  constructor
  · intro hb
    constructor <;> simp [Button.keypress, hb]
  · intro hk1 hk2
    simp [Button.keypress, hk1, hk2]

/-- Witness for C10 at concrete inputs. -/
theorem c10_witness :
    (Button.keypress ⟨"b", false, Option.none⟩ 8 " " = (Option.none, []) ∧
      Button.keypress ⟨"b", false, Option.none⟩ 8 "enter" =
        (Option.none, [])) ∧
    Button.keypress ⟨"b", true, some "u"⟩ 8 "x" = (some "x", []) :=
  ⟨(c10_button_keypress_no_callback ⟨"b", false, Option.none⟩ 8 "x").1 rfl,
    (c10_button_keypress_no_callback ⟨"b", true, some "u"⟩ 8 "x").2
      (by decide) (by decide)⟩

